import Mathlib

/-!
Shallow embedding of the `pokemon_pokedex_mcp` server (src/src/server.ts and
the multi-tool variant src/unnamed/part_000).

Each tool handler is modelled as a total function from its arguments and the
outcomes of its upstream HTTP fetches to a `ToolResult`.  Fetch outcomes are
environment inputs: `Fetch β` is either a network-layer rejection carrying the
cause message, or a response with an HTTP status and a (decoded) body of type
`β`.  Where the TypeScript validates the body with zod (getPokemonInfo), the
parse outcome is part of the environment (`Except String Pokemon`); elsewhere
the code accesses untyped JSON fields directly and the bodies are modelled as
the records whose fields the code reads.  JavaScript string and array
operations (`toLowerCase`, `replace(/\s+/g,'-')`, `slice`, `padEnd`, `join`,
`repeat`, template interpolation of numbers) are embedded by functions below,
restricted to ASCII text and integer numbers, which covers every value the
claims quantify over.
-/

namespace PokeMcp

/-- JavaScript `toUpperCase` on an ASCII character: code points 97-122 are
the letters a-z, mapped down by 32 to A-Z. -/
def asciiToUpper (c : Char) : Char :=
  if 97 ≤ c.toNat ∧ c.toNat ≤ 122 then Char.ofNat (c.toNat - 32) else c

/-- JavaScript `toLowerCase` on an ASCII character: code points 65-90 are
the letters A-Z, mapped up by 32 to a-z. -/
def asciiToLower (c : Char) : Char :=
  if 65 ≤ c.toNat ∧ c.toNat ≤ 90 then Char.ofNat (c.toNat + 32) else c

/-- `s.toLowerCase()` on ASCII text. -/
def jsToLower (s : String) : String :=
  String.mk (s.data.map asciiToLower)

/-- `str.charAt(0).toUpperCase() + str.slice(1)` (server.ts line 44, part_000 line 15). -/
def capitalize (s : String) : String :=
  match s.data with
  | [] => ""
  | c :: rest => String.mk (asciiToUpper c :: rest)

/-- A character matched by the JavaScript regex class `\s` (ASCII range):
space (32), tab (9), line feed (10), vertical tab (11), form feed (12),
carriage return (13). -/
def jsIsSpace (c : Char) : Bool :=
  c.toNat = 32 || c.toNat = 9 || c.toNat = 10 ||
    c.toNat = 11 || c.toNat = 12 || c.toNat = 13

/-- `replace(/\s+/g, '-')`: each maximal run of whitespace becomes one hyphen.
The flag records whether the previous character was part of a whitespace run. -/
def replaceSpaceRuns : Bool → List Char → List Char
  | _, [] => []
  | inRun, c :: rest =>
    if jsIsSpace c then
      if inRun then replaceSpaceRuns true rest
      else '-' :: replaceSpaceRuns true rest
    else c :: replaceSpaceRuns false rest

/-- `name.toLowerCase().replace(/\s+/g, '-')` (server.ts line 31). -/
def normalize (name : String) : String :=
  String.mk (replaceSpaceRuns false (jsToLower name).data)

/-- How a JavaScript template string renders `n / 10` for a nonnegative
integer `n`: an exact decimal, with the fractional digit dropped when it is
zero (`4/10` renders as `0.4`, `20/10` as `2`). -/
def renderDiv10 (n : Nat) : String :=
  if n % 10 = 0 then toString (n / 10)
  else toString (n / 10) ++ "." ++ toString (n % 10)

/-- `"  ".repeat(level)` and `"-".repeat(80)`: JavaScript String.repeat. -/
def jsRepeat (s : String) (n : Nat) : String :=
  String.join (List.replicate n s)

/-- `s.padEnd(n)`: pad on the right with spaces up to length `n`. -/
def padEnd (s : String) (n : Nat) : String :=
  s ++ String.mk (List.replicate (n - s.length) ' ')

/-- `response.ok`: status in the 2xx range. -/
def respOk (status : Nat) : Bool :=
  200 ≤ status && status ≤ 299

/-- Outcome of one `fetch`: a network-layer rejection with its cause message,
or a response with HTTP status and decoded body. -/
inductive Fetch (β : Type) where
  | netErr (msg : String)
  | resp (status : Nat) (body : β)

/-- `handleApiError(response, context)` (part_000 lines 18-23): the message of
the error it throws, given the response status. -/
def handleApiError (status : Nat) (context : String) : String :=
  if status = 404 then context ++ " not found."
  else "Failed to fetch " ++ context ++ ": " ++ toString status

/-- A tool result: the texts of the `content` array and the `isError` flag
(absent in the source on success, i.e. `false`). -/
structure ToolResult where
  content : List String
  isError : Bool
deriving DecidableEq, Repr

/-! ### get_pokemon_pokedex_info (src/src/server.ts) -/

structure TypeName where
  name : String
deriving DecidableEq, Repr

structure TypeEntry where
  type : TypeName
deriving DecidableEq, Repr

/-- The shape accepted by `PokemonSchema` (server.ts lines 6-16). -/
structure Pokemon where
  id : Nat
  name : String
  height : Nat
  weight : Nat
  types : List TypeEntry
deriving DecidableEq, Repr

/-- The URL requested by `getPokemonInfo` (server.ts line 32); the fetch is
issued unconditionally, before any check on the name. -/
def getPokemonInfoUrl (name : String) : String :=
  "https://pokeapi.co/api/v2/pokemon/" ++ normalize name

/-- `getPokemonInfo` (server.ts lines 29-52), given the outcome of fetching
`getPokemonInfoUrl name`.  The body component is the outcome of
`PokemonSchema.parse` on the response JSON.  `.error` is the message of the
error thrown (and rethrown unchanged by the catch at lines 49-51). -/
def getPokemonInfo (name : String) (f : Fetch (Except String Pokemon)) :
    Except String String :=
  match f with
  | .netErr msg => .error msg
  | .resp status parsed =>
    if respOk status then
      match parsed with
      | .error e => .error e
      | .ok pokemon =>
        .ok (capitalize pokemon.name ++ " (#" ++ toString pokemon.id ++ ") - " ++
          String.intercalate ", " (pokemon.types.map (fun t => capitalize t.type.name)) ++
          " type, " ++ renderDiv10 pokemon.height ++ "m tall, " ++
          renderDiv10 pokemon.weight ++ "kg")
    else if status = 404 then
      .error ("Pokémon \"" ++ name ++ "\" not found.")
    else
      .error ("Failed to fetch Pokémon data: " ++ toString status)

/-- The `get_pokemon_pokedex_info` tool handler (server.ts lines 54-74). -/
def get_pokemon_pokedex_info (name : String) (f : Fetch (Except String Pokemon)) :
    ToolResult :=
  match getPokemonInfo name f with
  | .ok text => ⟨[text], false⟩
  | .error msg => ⟨["Error getting pokemon info: " ++ msg], true⟩

/-! ### search_pokemon_by_type and search_pokemon_by_generation (part_000) -/

/-- JavaScript `l.slice(0, e)`: a nonnegative end index takes the prefix
(`List.take` saturates at the length exactly as slice clamps); a negative
end index counts from the end of the array. -/
def jsSliceTo {α : Type} (l : List α) (e : Int) : List α :=
  l.take (if e < 0 then ((l.length : Int) + e).toNat else e.toNat)

/-- JavaScript `s.split(sep)` for a single-character separator, over the
character list: empty segments before, between and after separators are
kept. -/
def splitChar (sep : Char) : List Char → List (List Char)
  | [] => [[]]
  | c :: rest =>
    match splitChar sep rest with
    | [] => if c = sep then [[], [c]] else [[c]]
    | h :: t => if c = sep then [] :: h :: t else (c :: h) :: t

/-- `url.split('/')`. -/
def jsSplitSlash (url : String) : List String :=
  (splitChar '/' url.data).map String.mk

/-- `url.split('/').slice(-2, -1)[0]` (part_000 lines 43 and 81); `none`
models the JavaScript `undefined` when the split has fewer than two parts. -/
def extractId (url : String) : Option String :=
  let parts := jsSplitSlash url
  ((parts.drop (parts.length - 2)).take ((parts.length - 1) - (parts.length - 2))).head?

/-- How a template string renders the value of `extractId`. -/
def idDisplay : Option String → String
  | some s => s
  | none => "undefined"

structure NamedUrl where
  name : String
  url : String
deriving DecidableEq, Repr

/-- One entry of `typeData.pokemon`. -/
structure TypeMember where
  pokemon : NamedUrl
deriving DecidableEq, Repr

/-- The fields of the `/type/{name}` response body the code reads. -/
structure TypeData where
  pokemon : List TypeMember
deriving DecidableEq, Repr

/-- The fields of the `/generation/{n}` response body the code reads. -/
structure GenData where
  pokemon_species : List NamedUrl
deriving DecidableEq, Repr

/-- The URL requested by search_pokemon_by_type (part_000 line 35). -/
def searchTypeUrl (type : String) : String :=
  "https://pokeapi.co/api/v2/type/" ++ jsToLower type

/-- The (name, id) entries built at part_000 lines 41-44:
`typeData.pokemon.slice(0, limit).map(...)`. -/
def searchTypeEntries (typeData : TypeData) (limit : Int) : List (String × String) :=
  (jsSliceTo typeData.pokemon limit).map
    (fun p => (capitalize p.pokemon.name, idDisplay (extractId p.pokemon.url)))

/-- `"• ${p.name} (#${p.id})"` (part_000 lines 46 and 84). -/
def bulletLine (p : String × String) : String :=
  "• " ++ p.1 ++ " (#" ++ p.2 ++ ")"

/-- The try-block of search_pokemon_by_type (part_000 lines 34-53): `.error`
is the message of the error thrown inside the block. -/
def searchTypeCore (type : String) (limit : Int) (f : Fetch TypeData) :
    Except String String :=
  match f with
  | .netErr msg => .error msg
  | .resp status body =>
    if respOk status then
      let pokemon := searchTypeEntries body limit
      let pokemonList := String.intercalate "\n" (pokemon.map bulletLine)
      .ok ("Found " ++ toString pokemon.length ++ " " ++ capitalize type ++
        " type Pokemon:\n\n" ++ pokemonList)
    else .error (handleApiError status ("Type \"" ++ type ++ "\""))

/-- The search_pokemon_by_type tool handler (part_000 lines 26-61). -/
def search_pokemon_by_type (type : String) (limit : Int) (f : Fetch TypeData) :
    ToolResult :=
  match searchTypeCore type limit f with
  | .ok text => ⟨[text], false⟩
  | .error msg => ⟨["Error searching Pokemon by type: " ++ msg], true⟩

/-- The (name, id) entries built at part_000 lines 79-82. -/
def searchGenEntries (genData : GenData) (limit : Int) : List (String × String) :=
  (jsSliceTo genData.pokemon_species limit).map
    (fun p => (capitalize p.name, idDisplay (extractId p.url)))

/-- The try-block of search_pokemon_by_generation (part_000 lines 72-91). -/
def searchGenCore (generation : Int) (limit : Int) (f : Fetch GenData) :
    Except String String :=
  match f with
  | .netErr msg => .error msg
  | .resp status body =>
    if respOk status then
      let pokemon := searchGenEntries body limit
      let pokemonList := String.intercalate "\n" (pokemon.map bulletLine)
      .ok ("Found " ++ toString pokemon.length ++ " Pokemon from Generation " ++
        toString generation ++ ":\n\n" ++ pokemonList)
    else .error (handleApiError status ("Generation " ++ toString generation))

/-- The search_pokemon_by_generation tool handler (part_000 lines 64-99). -/
def search_pokemon_by_generation (generation : Int) (limit : Int) (f : Fetch GenData) :
    ToolResult :=
  match searchGenCore generation limit f with
  | .ok text => ⟨[text], false⟩
  | .error msg => ⟨["Error searching Pokemon by generation: " ++ msg], true⟩

/-! ### get_pokemon_evolution_chain (part_000) -/

structure UrlRef where
  url : String
deriving DecidableEq, Repr

/-- The field of the first `/pokemon/{name}` body the code reads. -/
structure PokemonBody where
  species : UrlRef
deriving DecidableEq, Repr

/-- The field of the species body the code reads. -/
structure SpeciesBody where
  evolution_chain : UrlRef
deriving DecidableEq, Repr

structure SpeciesRef where
  name : String
deriving DecidableEq, Repr

/-- One node of the evolution-chain document: `species.name` and the
`evolves_to` children. -/
inductive EvoNode where
  | mk (species : SpeciesRef) (evolves_to : List EvoNode)

def EvoNode.species : EvoNode → SpeciesRef
  | .mk s _ => s

def EvoNode.evolves_to : EvoNode → List EvoNode
  | .mk _ cs => cs

/-- The field of the evolution-chain body the code reads. -/
structure ChainBody where
  chain : EvoNode

mutual

/-- `parseEvolutionChain(chain, level)` (part_000 lines 131-143): the root
line followed by the lines of every child at the next level. -/
def parseEvolutionChain : EvoNode → Nat → List String
  | .mk species evolves_to, level =>
    (jsRepeat "  " level ++ "• " ++ capitalize species.name) ::
      parseChildren evolves_to (level + 1)

/-- The `for (const evolution of chain.evolves_to)` concatenation loop inside
`parseEvolutionChain` (part_000 lines 136-140). -/
def parseChildren : List EvoNode → Nat → List String
  | [], _ => []
  | c :: cs, level => parseEvolutionChain c level ++ parseChildren cs level

end

/-- The URL of the first fetch of get_pokemon_evolution_chain
(part_000 line 111): only `toLowerCase`, no whitespace replacement. -/
def evoFirstUrl (name : String) : String :=
  "https://pokeapi.co/api/v2/pokemon/" ++ jsToLower name

/-- The try-block of get_pokemon_evolution_chain (part_000 lines 109-152),
given the outcomes of its three sequential fetches. -/
def evolutionChainCore (name : String) (f1 : Fetch PokemonBody)
    (f2 : Fetch SpeciesBody) (f3 : Fetch ChainBody) : Except String String :=
  match f1 with
  | .netErr m => .error m
  | .resp s1 _ =>
    if !respOk s1 then .error (handleApiError s1 ("Pokemon \"" ++ name ++ "\""))
    else match f2 with
    | .netErr m => .error m
    | .resp s2 _ =>
      if !respOk s2 then .error (handleApiError s2 ("Species for \"" ++ name ++ "\""))
      else match f3 with
      | .netErr m => .error m
      | .resp s3 body3 =>
        if !respOk s3 then
          .error (handleApiError s3 ("Evolution chain for \"" ++ name ++ "\""))
        else
          .ok ("Evolution chain for " ++ capitalize name ++ ":\n\n" ++
            String.intercalate "\n" (parseEvolutionChain body3.chain 0))

/-- The get_pokemon_evolution_chain tool handler (part_000 lines 102-160). -/
def get_pokemon_evolution_chain (name : String) (f1 : Fetch PokemonBody)
    (f2 : Fetch SpeciesBody) (f3 : Fetch ChainBody) : ToolResult :=
  match evolutionChainCore name f1 f2 f3 with
  | .ok text => ⟨[text], false⟩
  | .error msg => ⟨["Error getting evolution chain: " ++ msg], true⟩

/-! ### compare_pokemon (part_000) -/

/-- One entry of `data.stats`. -/
structure StatEntry where
  base_stat : Nat
deriving DecidableEq, Repr

/-- The fields of a `/pokemon/{name}` body that compare_pokemon reads. -/
structure CmpBody where
  name : String
  id : Nat
  types : List TypeEntry
  stats : List StatEntry
deriving DecidableEq, Repr

/-- The object pushed onto `pokemonData` (part_000 lines 181-194). -/
structure CmpRow where
  name : String
  id : Nat
  types : String
  hp : Nat
  attack : Nat
  defense : Nat
  specialAttack : Nat
  specialDefense : Nat
  speed : Nat
  total : Nat
deriving DecidableEq, Repr

/-- The URL fetched for one name (part_000 line 175): only `toLowerCase`. -/
def compareFetchUrl (name : String) : String :=
  "https://pokeapi.co/api/v2/pokemon/" ++ jsToLower name

/-- The row built for one fetched body (part_000 lines 181-194).  The six
stats are read by fixed positional index; `total` is
`data.stats.reduce((sum, stat) => sum + stat.base_stat, 0)` over the whole
array.  `none` models the TypeError thrown when `stats` has fewer than six
entries. -/
def makeRow (data : CmpBody) : Option CmpRow :=
  match data.stats with
  | s0 :: s1 :: s2 :: s3 :: s4 :: s5 :: _ =>
    some { name := capitalize data.name
           id := data.id
           types := String.intercalate ", " (data.types.map (fun t => capitalize t.type.name))
           hp := s0.base_stat
           attack := s1.base_stat
           defense := s2.base_stat
           specialAttack := s3.base_stat
           specialDefense := s4.base_stat
           speed := s5.base_stat
           total := data.stats.foldl (fun sum stat => sum + stat.base_stat) 0 }
  | _ => none

/-- The message of the TypeError thrown by `data.stats[i].base_stat` when
`data.stats[i]` is `undefined` (V8 wording). -/
def undefinedBaseStatMsg : String :=
  "Cannot read properties of undefined (reading \x27base_stat\x27)"

/-- The sequential fetch-and-push loop of compare_pokemon (part_000 lines
174-195): rows in caller order, aborting at the first failure. -/
def comparePokemonRows : List (String × Fetch CmpBody) → Except String (List CmpRow)
  | [] => .ok []
  | (name, f) :: rest =>
    match f with
    | .netErr m => .error m
    | .resp status data =>
      if !respOk status then .error (handleApiError status ("Pokemon \"" ++ name ++ "\""))
      else match makeRow data with
      | none => .error undefinedBaseStatMsg
      | some row => (comparePokemonRows rest).map (fun rows => row :: rows)

/-- The header line of the comparison table (part_000 line 199). -/
def comparisonHeader : String :=
  padEnd "Name" 15 ++ padEnd "Type" 20 ++ padEnd "HP" 5 ++ padEnd "ATK" 5 ++
    padEnd "DEF" 5 ++ padEnd "SPA" 5 ++ padEnd "SPD" 5 ++ padEnd "SPE" 5 ++ "Total\n"

/-- One data row of the comparison table (part_000 lines 202-212). -/
def renderCmpRow (p : CmpRow) : String :=
  padEnd p.name 15 ++ padEnd p.types 20 ++ padEnd (toString p.hp) 5 ++
    padEnd (toString p.attack) 5 ++ padEnd (toString p.defense) 5 ++
    padEnd (toString p.specialAttack) 5 ++ padEnd (toString p.specialDefense) 5 ++
    padEnd (toString p.speed) 5 ++ toString p.total ++ "\n"

/-- The full comparison text (part_000 lines 198-212). -/
def renderComparison (rows : List CmpRow) : String :=
  "Pokemon Comparison:\n\n" ++ comparisonHeader ++ jsRepeat "-" 80 ++ "\n" ++
    String.join (rows.map renderCmpRow)

/-- The try-block of compare_pokemon (part_000 lines 170-219). -/
def comparePokemonCore (inputs : List (String × Fetch CmpBody)) :
    Except String String :=
  (comparePokemonRows inputs).map renderComparison

/-- The compare_pokemon tool handler (part_000 lines 163-227). -/
def compare_pokemon (inputs : List (String × Fetch CmpBody)) : ToolResult :=
  match comparePokemonCore inputs with
  | .ok text => ⟨[text], false⟩
  | .error msg => ⟨["Error comparing Pokemon: " ++ msg], true⟩

/-! ### Vocabulary used to state the claims -/

mutual

/-- Depth-annotated pre-order flatten of an evolution tree: the node at its
depth, then the flattens of all children at the next depth, in order. -/
def preorderDepths : EvoNode → Nat → List (Nat × String)
  | .mk species evolves_to, level =>
    (level, species.name) :: preorderDepthsChildren evolves_to (level + 1)

/-- Pre-order flattens of a list of sibling subtrees, in order. -/
def preorderDepthsChildren : List EvoNode → Nat → List (Nat × String)
  | [], _ => []
  | c :: cs, level => preorderDepths c level ++ preorderDepthsChildren cs level

end

/-- The spec-side id-extraction algorithm of §4.3, for the refinement claim
C9, following the spec's words: split on "/", drop the trailing empty
segment, take the last non-empty segment. -/
def specLastSegmentId (url : String) : Option String :=
  let parts := jsSplitSlash url
  let trimmed := if parts.getLast? = some "" then parts.dropLast else parts
  trimmed.reverse.find? (fun s => s != "")

/-! ### Helper lemmas -/

theorem toNat_ofNat_valid (n : Nat) (h : n.isValidChar) :
    (Char.ofNat n).toNat = n := by
  unfold Char.ofNat
  rw [dif_pos h]
  unfold Char.ofNatAux Char.toNat
  rfl

theorem jsIsSpace_asciiToLower (c : Char) :
    jsIsSpace (asciiToLower c) = jsIsSpace c := by
  unfold asciiToLower
  split
  · next h =>
    have hv : (c.toNat + 32).isValidChar := by
      left
      omega
    have h1 : jsIsSpace (Char.ofNat (c.toNat + 32)) = false := by
      simp [jsIsSpace, toNat_ofNat_valid _ hv]
      omega
    have h2 : jsIsSpace c = false := by
      simp [jsIsSpace]
      omega
    rw [h1, h2]
  · rfl

theorem replaceSpaceRuns_nospace :
    ∀ (l : List Char), (∀ c ∈ l, jsIsSpace c = false) →
      ∀ b, replaceSpaceRuns b l = l
  | [], _, _ => rfl
  | c :: rest, h, b => by
    have hc : jsIsSpace c = false := h c (List.mem_cons_self c rest)
    unfold replaceSpaceRuns
    rw [hc]
    simp only [Bool.false_eq_true, if_false, List.cons.injEq, true_and]
    exact replaceSpaceRuns_nospace rest
      (fun x hx => h x (List.mem_cons_of_mem c hx)) false

/-! ### C1 -/

/-- C1: for every name whose upstream lookup succeeds (2xx status) and whose
JSON body parses to the PokemonRecord shape, get_pokemon_info returns a
non-error result whose single text is exactly
"{Capitalized name} (#{id}) - {Type1, Type2} type, {height/10}m tall,
{weight/10}kg": the upstream type names in order, each capitalized, joined
by ", ", and height and weight rendered as the exact decimals of the
upstream integers divided by 10. -/
theorem C1_info_template (name : String) (status : Nat) (p : Pokemon)
    (hok : respOk status = true) :
    get_pokemon_pokedex_info name (.resp status (.ok p)) =
      ⟨[capitalize p.name ++ " (#" ++ toString p.id ++ ") - " ++
        String.intercalate ", " (p.types.map (fun t => capitalize t.type.name)) ++
        " type, " ++ renderDiv10 p.height ++ "m tall, " ++
        renderDiv10 p.weight ++ "kg"], false⟩ := by
  simp [get_pokemon_pokedex_info, getPokemonInfo, hok]

/-- Witness for C1 at Pikachu's record (status 200, height 4 dm, weight 60 hg,
one type "electric"). -/
theorem C1_info_template_witness :
    respOk 200 = true ∧
    get_pokemon_pokedex_info "pikachu"
        (.resp 200 (.ok ⟨25, "pikachu", 4, 60, [⟨⟨"electric"⟩⟩]⟩)) =
      ⟨["Pikachu (#25) - Electric type, 0.4m tall, 6kg"], false⟩ := by
  refine ⟨rfl, ?_⟩
  have h := C1_info_template "pikachu" 200
    ⟨25, "pikachu", 4, 60, [⟨⟨"electric"⟩⟩]⟩ rfl
  rw [h]
  rfl

/-! ### C4 -/

/-- C4 counterexample: on a network-layer failure the result text is only the
operation's failure prefix plus the original cause message.  No `UpstreamError`
with a context label and "network" marker exists: the text contains neither
the substring "network" nor the per-call context label `Type "fire"`
(non-occurrence stated as non-infixness of the character lists). -/
theorem C4_counterexample :
    search_pokemon_by_type "fire" 20 (.netErr "fetch failed") =
      ⟨["Error searching Pokemon by type: fetch failed"], true⟩ ∧
    ¬ List.IsInfix "network".data
        "Error searching Pokemon by type: fetch failed".data ∧
    ¬ List.IsInfix ("Type \"fire\"").data
        "Error searching Pokemon by type: fetch failed".data :=
  ⟨rfl, by decide, by decide⟩

/-- C4 amended: when the upstream request fails at the network layer, every
operation catches the rejection and returns an error-flagged result whose
text is the operation's failure prefix followed by the original cause
message, preserved verbatim; no "network" marker or per-call context label
is added. -/
theorem C4_network_passthrough :
    (∀ name msg, get_pokemon_pokedex_info name (.netErr msg) =
      ⟨["Error getting pokemon info: " ++ msg], true⟩) ∧
    (∀ type limit msg, search_pokemon_by_type type limit (.netErr msg) =
      ⟨["Error searching Pokemon by type: " ++ msg], true⟩) ∧
    (∀ generation limit msg,
      search_pokemon_by_generation generation limit (.netErr msg) =
        ⟨["Error searching Pokemon by generation: " ++ msg], true⟩) ∧
    (∀ name msg f2 f3, get_pokemon_evolution_chain name (.netErr msg) f2 f3 =
      ⟨["Error getting evolution chain: " ++ msg], true⟩) ∧
    (∀ name msg rest, compare_pokemon ((name, .netErr msg) :: rest) =
      ⟨["Error comparing Pokemon: " ++ msg], true⟩) :=
  ⟨fun _ _ => rfl, fun _ _ _ => rfl, fun _ _ _ => rfl,
    fun _ _ _ _ => rfl, fun _ _ _ => rfl⟩

/-! ### C5 -/

/-- C5 counterexample: get_pokemon_evolution_chain's first upstream call and
compare_pokemon's per-name calls only lowercase the name — whitespace is not
replaced — so "Mr Mime" is requested at ".../pokemon/mr mime", not at the
hyphen-joined slug ".../pokemon/mr-mime" that the whitespace-replacing
normalization produces. -/
theorem C5_counterexample :
    evoFirstUrl "Mr Mime" = "https://pokeapi.co/api/v2/pokemon/mr mime" ∧
    compareFetchUrl "Mr Mime" = "https://pokeapi.co/api/v2/pokemon/mr mime" ∧
    normalize "Mr Mime" = "mr-mime" ∧
    ("https://pokeapi.co/api/v2/pokemon/mr mime" : String) ≠
      "https://pokeapi.co/api/v2/pokemon/mr-mime" :=
  ⟨rfl, rfl, by decide, by decide⟩

/-- C5 amended: the slug used by get_pokemon_evolution_chain's first call and
by compare_pokemon's per-name calls is only the lowercased name (no
whitespace replacement); it agrees with the lowercase hyphen-joining
normalization exactly on names containing no whitespace. -/
theorem C5_slug_lowercase_only (name : String)
    (hnospace : name.data.all (fun c => !jsIsSpace c) = true) :
    (∀ n : String,
      evoFirstUrl n = "https://pokeapi.co/api/v2/pokemon/" ++ jsToLower n ∧
      compareFetchUrl n = "https://pokeapi.co/api/v2/pokemon/" ++ jsToLower n) ∧
    jsToLower name = normalize name := by
  refine ⟨fun n => ⟨rfl, rfl⟩, ?_⟩
  have hdata : ∀ c ∈ (jsToLower name).data, jsIsSpace c = false := by
    intro c hc
    simp only [jsToLower, List.mem_map] at hc
    obtain ⟨d, hd, rfl⟩ := hc
    rw [jsIsSpace_asciiToLower]
    have hall := List.all_eq_true.mp hnospace d hd
    simpa using hall
  unfold normalize
  rw [replaceSpaceRuns_nospace _ hdata false]

/-- Witness for C5 at the whitespace-free name "pikachu". -/
theorem C5_slug_lowercase_only_witness :
    "pikachu".data.all (fun c => !jsIsSpace c) = true ∧
    jsToLower "pikachu" = normalize "pikachu" :=
  ⟨by decide, (C5_slug_lowercase_only "pikachu" (by decide)).2⟩

/-! ### C6 -/

/-- C6 counterexample: for the empty name (empty after normalization) no
caller error is produced before the upstream call — the handler's outcome is
determined by the upstream response to GET of the bare /pokemon/ endpoint:
with a 2xx response it even succeeds, and with a 404 it reports the
upstream-derived not-found error. -/
theorem C6_counterexample :
    normalize "" = "" ∧
    getPokemonInfoUrl "" = "https://pokeapi.co/api/v2/pokemon/" ∧
    get_pokemon_pokedex_info ""
        (.resp 200 (.ok ⟨1, "x", 10, 10, [⟨⟨"a"⟩⟩]⟩)) =
      ⟨["X (#1) - A type, 1m tall, 1kg"], false⟩ ∧
    get_pokemon_pokedex_info "" (.resp 404 (.error "e")) =
      ⟨["Error getting pokemon info: Pokémon \"\" not found."], true⟩ :=
  ⟨rfl, rfl, rfl, rfl⟩

/-- C6 amended: get_pokemon_info performs no emptiness check: an input that
is empty after normalization is sent upstream as a GET of the bare /pokemon/
endpoint, and a failure surfaces from the upstream response (a 404 becomes
the not-found error for the empty name), not as a pre-call caller error. -/
theorem C6_empty_name_goes_upstream :
    getPokemonInfoUrl "" = "https://pokeapi.co/api/v2/pokemon/" ∧
    (∀ msg, get_pokemon_pokedex_info "" (.resp 404 (.error msg)) =
      ⟨["Error getting pokemon info: Pokémon \"\" not found."], true⟩) ∧
    (∀ msg, get_pokemon_pokedex_info "" (.netErr msg) =
      ⟨["Error getting pokemon info: " ++ msg], true⟩) :=
  ⟨rfl, fun _ => rfl, fun _ => rfl⟩

/-! ### C7 -/

/-- C7 counterexample: the normalization of get_pokemon_info maps "Mr. Mime"
to "mr.-mime" — the period is kept — not to the slug "mr-mime" stated by the
claim. -/
theorem C7_counterexample :
    normalize "Mr. Mime" = "mr.-mime" ∧ ("mr.-mime" : String) ≠ "mr-mime" :=
  ⟨rfl, by decide⟩

/-- C7 amended: the normalization lowercases and replaces whitespace runs
with hyphens but keeps punctuation: "Mr Mime" maps to "mr-mime" while
"Mr. Mime" maps to "mr.-mime"; inputs already normalized (no whitespace, no
uppercase ASCII) pass through unchanged. -/
theorem C7_normalization (name : String)
    (hplain : name.data.all
      (fun c => !jsIsSpace c && (asciiToLower c == c)) = true) :
    normalize "Mr Mime" = "mr-mime" ∧
    normalize "Mr. Mime" = "mr.-mime" ∧
    normalize name = name := by
  refine ⟨by decide, rfl, ?_⟩
  have h := List.all_eq_true.mp hplain
  have hfix : name.data.map asciiToLower = name.data := by
    have := List.map_congr_left (l := name.data) (f := asciiToLower) (g := id)
      (fun a ha => by
        have hr := h a ha
        simp only [Bool.and_eq_true, beq_iff_eq] at hr
        simpa using hr.2)
    simpa using this
  have hnosp : ∀ c ∈ name.data, jsIsSpace c = false := by
    intro a ha
    have hr := h a ha
    simp only [Bool.and_eq_true, Bool.not_eq_true'] at hr
    exact hr.1
  show String.mk (replaceSpaceRuns false (name.data.map asciiToLower)) = name
  rw [hfix, replaceSpaceRuns_nospace name.data hnosp false]

/-- Witness for C7 at the already-normalized input "mr-mime". -/
theorem C7_normalization_witness :
    "mr-mime".data.all
      (fun c => !jsIsSpace c && (asciiToLower c == c)) = true ∧
    normalize "mr-mime" = "mr-mime" :=
  ⟨by decide, (C7_normalization "mr-mime" (by decide)).2.2⟩

/-! ### C3 -/

/-- C3: every failure inside any tool's try-block (upstream 404, other
non-2xx status, network failure, stats/schema failure) is caught at the
handler boundary and converted into a result with the error flag set and a
single text payload prefixed with that operation's failure context; the
handlers are total functions of their inputs, so no exception propagates
past the tool-handler boundary. -/
theorem C3_error_flagging :
    (∀ name f msg, getPokemonInfo name f = .error msg →
      get_pokemon_pokedex_info name f =
        ⟨["Error getting pokemon info: " ++ msg], true⟩) ∧
    (∀ type limit f msg, searchTypeCore type limit f = .error msg →
      search_pokemon_by_type type limit f =
        ⟨["Error searching Pokemon by type: " ++ msg], true⟩) ∧
    (∀ generation limit f msg, searchGenCore generation limit f = .error msg →
      search_pokemon_by_generation generation limit f =
        ⟨["Error searching Pokemon by generation: " ++ msg], true⟩) ∧
    (∀ name f1 f2 f3 msg, evolutionChainCore name f1 f2 f3 = .error msg →
      get_pokemon_evolution_chain name f1 f2 f3 =
        ⟨["Error getting evolution chain: " ++ msg], true⟩) ∧
    (∀ inputs msg, comparePokemonCore inputs = .error msg →
      compare_pokemon inputs = ⟨["Error comparing Pokemon: " ++ msg], true⟩) := by
  refine ⟨?_, ?_, ?_, ?_, ?_⟩
  · intro name f msg h
    simp [get_pokemon_pokedex_info, h]
  · intro type limit f msg h
    simp [search_pokemon_by_type, h]
  · intro generation limit f msg h
    simp [search_pokemon_by_generation, h]
  · intro name f1 f2 f3 msg h
    simp [get_pokemon_evolution_chain, h]
  · intro inputs msg h
    simp [compare_pokemon, h]

/-- Witness for C3: one concrete failure per tool — a network failure, a
404, a non-404 status, a failing first stage of the chain, and a body whose
stats array is too short. -/
theorem C3_error_flagging_witness :
    get_pokemon_pokedex_info "abc" (.netErr "boom") =
      ⟨["Error getting pokemon info: boom"], true⟩ ∧
    search_pokemon_by_type "fire" 20 (.resp 404 ⟨[]⟩) =
      ⟨["Error searching Pokemon by type: Type \"fire\" not found."], true⟩ ∧
    search_pokemon_by_generation 3 20 (.resp 500 ⟨[]⟩) =
      ⟨["Error searching Pokemon by generation: Failed to fetch Generation 3: 500"],
        true⟩ ∧
    get_pokemon_evolution_chain "eevee" (.resp 404 ⟨⟨"u"⟩⟩)
        (.netErr "x") (.netErr "y") =
      ⟨["Error getting evolution chain: Pokemon \"eevee\" not found."], true⟩ ∧
    compare_pokemon [("mew", .resp 200 ⟨"mew", 151, [], []⟩)] =
      ⟨["Error comparing Pokemon: " ++ undefinedBaseStatMsg], true⟩ :=
  ⟨C3_error_flagging.1 _ _ _ rfl, C3_error_flagging.2.1 _ _ _ _ rfl,
    C3_error_flagging.2.2.1 _ _ _ _ rfl, C3_error_flagging.2.2.2.1 _ _ _ _ _ rfl,
    C3_error_flagging.2.2.2.2 _ _ rfl⟩

/-! ### C8 -/

mutual

theorem parseEvolutionChain_eq_preorder :
    ∀ (c : EvoNode) (level : Nat),
      parseEvolutionChain c level =
        (preorderDepths c level).map
          (fun p => jsRepeat "  " p.1 ++ "• " ++ capitalize p.2)
  | .mk species evolves_to, level => by
    rw [parseEvolutionChain, preorderDepths, List.map_cons]
    rw [parseChildren_eq_preorder evolves_to (level + 1)]

theorem parseChildren_eq_preorder :
    ∀ (cs : List EvoNode) (level : Nat),
      parseChildren cs level =
        (preorderDepthsChildren cs level).map
          (fun p => jsRepeat "  " p.1 ++ "• " ++ capitalize p.2)
  | [], _ => rfl
  | c :: cs, level => by
    rw [parseChildren, preorderDepthsChildren, List.map_append]
    rw [parseEvolutionChain_eq_preorder c level, parseChildren_eq_preorder cs level]

end

/-- C8: the rendered evolution chain is the depth-first pre-order listing of
the tree — a node at depth d renders as two spaces times d, then "• ", then
the capitalized species name, with all children of the evolves_to listing
rendered in upstream order before the next sibling; in particular a
three-stage single-path chain renders exactly three lines at depths 0, 1, 2,
and a root with leaf branches renders one depth-0 line followed by one
depth-1 line per branch. -/
theorem C8_preorder_rendering :
    (∀ (c : EvoNode) (level : Nat),
      parseEvolutionChain c level =
        (preorderDepths c level).map
          (fun p => jsRepeat "  " p.1 ++ "• " ++ capitalize p.2)) ∧
    (∀ a b c : String,
      parseEvolutionChain (.mk ⟨a⟩ [.mk ⟨b⟩ [.mk ⟨c⟩ []]]) 0 =
        ["• " ++ capitalize a, "  • " ++ capitalize b,
          "    • " ++ capitalize c]) ∧
    (∀ (root : String) (branches : List String),
      parseEvolutionChain (.mk ⟨root⟩ (branches.map (fun n => .mk ⟨n⟩ []))) 0 =
        ("• " ++ capitalize root) ::
          branches.map (fun n => "  • " ++ capitalize n)) := by
  refine ⟨parseEvolutionChain_eq_preorder, fun a b c => rfl, ?_⟩
  intro root branches
  have hchildren : ∀ (bs : List String),
      parseChildren (bs.map (fun n => EvoNode.mk ⟨n⟩ [])) 1 =
        bs.map (fun n => "  • " ++ capitalize n) := by
    intro bs
    induction bs with
    | nil => rfl
    | cons x xs ih => exact congrArg (List.cons ("  • " ++ capitalize x)) ih
  exact congrArg (List.cons ("• " ++ capitalize root)) (hchildren branches)

/-! ### C9 -/

/-- C9: on every member detail URL of the shape ".../pokemon/{id}/" — one
whose split on "/" ends with a nonempty id segment followed by the trailing
empty segment — the code's extraction `split('/').slice(-2, -1)[0]` agrees
with the spec's algorithm (split on "/", drop the trailing empty segment,
take the last non-empty segment), and both produce the id.  The type search
and the generation search use this same extraction expression. -/
theorem C9_id_extraction_equiv (url id : String) (ps : List String)
    (hsplit : jsSplitSlash url = ps ++ [id, ""]) (hid : id ≠ "") :
    extractId url = specLastSegmentId url ∧ extractId url = some id := by
  have hcode : extractId url = some id := by
    simp only [extractId]
    rw [hsplit]
    have hlen : (ps ++ [id, ""]).length = ps.length + 2 := by simp
    rw [hlen]
    have h1 : ps.length + 2 - 2 = ps.length := by omega
    rw [h1]
    have h2 : ps.length + 2 - 1 - ps.length = 1 := by omega
    rw [h2]
    have hdrop : (ps ++ [id, ""]).drop ps.length = [id, ""] :=
      List.drop_left ps [id, ""]
    rw [hdrop]
    rfl
  have hspec : specLastSegmentId url = some id := by
    simp only [specLastSegmentId]
    rw [hsplit]
    have hassoc : ps ++ [id, ""] = (ps ++ [id]) ++ [""] := by simp
    rw [hassoc, List.getLast?_concat, if_pos rfl, List.dropLast_concat,
      List.reverse_concat']
    exact List.find?_cons_of_pos _ (by simpa using hid)
  exact ⟨hcode.trans hspec.symm, hcode⟩

/-- Witness for C9 at a concrete member detail URL. -/
theorem C9_id_extraction_equiv_witness :
    jsSplitSlash "https://pokeapi.co/api/v2/pokemon/25/" =
      ["https:", "", "pokeapi.co", "api", "v2", "pokemon"] ++ ["25", ""] ∧
    ("25" : String) ≠ "" ∧
    extractId "https://pokeapi.co/api/v2/pokemon/25/" =
      specLastSegmentId "https://pokeapi.co/api/v2/pokemon/25/" ∧
    extractId "https://pokeapi.co/api/v2/pokemon/25/" = some "25" := by
  have h := C9_id_extraction_equiv "https://pokeapi.co/api/v2/pokemon/25/" "25"
    ["https:", "", "pokeapi.co", "api", "v2", "pokemon"] rfl (by decide)
  exact ⟨rfl, by decide, h.1, h.2⟩

/-! ### C10 -/

/-- C10: both searches return exactly the JavaScript slice(0, limit) prefix
of the upstream member list: a nonnegative limit k takes the first k
entries; limit 0 succeeds without the error flag, with a "Found 0" header
and zero entries; and a negative limit -(k+1) takes the first
max(0, n - (k+1)) entries (dropping the last k+1), rather than being
rejected or treated as unlimited. -/
theorem C10_limit_slice_semantics :
    (∀ (α : Type) (l : List α) (k : Nat),
      jsSliceTo l (k : Int) = l.take k) ∧
    (∀ (α : Type) (l : List α) (k : Nat),
      jsSliceTo l (-((k : Int) + 1)) = l.take (l.length - (k + 1))) ∧
    (∀ (td : TypeData) (k : Nat),
      searchTypeEntries td (k : Int) =
        (td.pokemon.take k).map
          (fun p => (capitalize p.pokemon.name,
            idDisplay (extractId p.pokemon.url)))) ∧
    (∀ (td : TypeData) (k : Nat),
      searchTypeEntries td (-((k : Int) + 1)) =
        (td.pokemon.take (td.pokemon.length - (k + 1))).map
          (fun p => (capitalize p.pokemon.name,
            idDisplay (extractId p.pokemon.url)))) ∧
    (∀ (gd : GenData) (k : Nat),
      searchGenEntries gd (k : Int) =
        (gd.pokemon_species.take k).map
          (fun p => (capitalize p.name, idDisplay (extractId p.url)))) ∧
    (∀ (gd : GenData) (k : Nat),
      searchGenEntries gd (-((k : Int) + 1)) =
        (gd.pokemon_species.take (gd.pokemon_species.length - (k + 1))).map
          (fun p => (capitalize p.name, idDisplay (extractId p.url)))) ∧
    (∀ (td : TypeData) (type : String),
      search_pokemon_by_type type 0 (.resp 200 td) =
        ⟨["Found 0 " ++ capitalize type ++ " type Pokemon:\n\n"], false⟩) ∧
    (∀ (gd : GenData) (generation : Int),
      search_pokemon_by_generation generation 0 (.resp 200 gd) =
        ⟨["Found 0 Pokemon from Generation " ++ toString generation ++ ":\n\n"],
          false⟩) := by
  have hslice_pos : ∀ (α : Type) (l : List α) (k : Nat),
      jsSliceTo l (k : Int) = l.take k := by
    intro α l k
    unfold jsSliceTo
    rw [if_neg (by omega)]
    congr 1
  have hslice_neg : ∀ (α : Type) (l : List α) (k : Nat),
      jsSliceTo l (-((k : Int) + 1)) = l.take (l.length - (k + 1)) := by
    intro α l k
    unfold jsSliceTo
    rw [if_pos (by omega)]
    congr 1
    omega
  refine ⟨hslice_pos, hslice_neg, ?_, ?_, ?_, ?_, ?_, ?_⟩
  · intro td k
    unfold searchTypeEntries
    rw [hslice_pos]
  · intro td k
    unfold searchTypeEntries
    rw [hslice_neg]
  · intro gd k
    unfold searchGenEntries
    rw [hslice_pos]
  · intro gd k
    unfold searchGenEntries
    rw [hslice_neg]
  · intro td type
    show ToolResult.mk ["Found " ++ toString (searchTypeEntries td 0).length ++
      " " ++ capitalize type ++ " type Pokemon:\n\n" ++
      String.intercalate "\n" ((searchTypeEntries td 0).map bulletLine)] false = _
    have h0 : searchTypeEntries td (0 : Int) = [] := rfl
    rw [h0]
    have h1 : String.intercalate "\n" (List.map bulletLine []) = "" := rfl
    rw [h1, String.append_empty]
    rfl
  · intro gd generation
    show ToolResult.mk ["Found " ++ toString (searchGenEntries gd 0).length ++
      " Pokemon from Generation " ++ toString generation ++ ":\n\n" ++
      String.intercalate "\n" ((searchGenEntries gd 0).map bulletLine)] false = _
    have h0 : searchGenEntries gd (0 : Int) = [] := rfl
    rw [h0]
    have h1 : String.intercalate "\n" (List.map bulletLine []) = "" := rfl
    rw [h1, String.append_empty]
    rfl

/-! ### C2 -/

theorem exists_six_of_length_eq {α : Type} (l : List α) (h : l.length = 6) :
    ∃ a b c d e f : α, l = [a, b, c, d, e, f] := by
  rcases l with _ | ⟨a, _ | ⟨b, _ | ⟨c, _ | ⟨d, _ | ⟨e, _ | ⟨f, _ | ⟨g, t⟩⟩⟩⟩⟩⟩⟩
  all_goals first
    | exact ⟨a, b, c, d, e, f, rfl⟩
    | simp at h

/-- C2: when every per-name fetch succeeds and every fetched body's stats
array has exactly six entries in the fixed order hp, attack, defense,
specialAttack, specialDefense, speed, compare_pokemon returns a non-error
table built from one data row per requested name in caller-supplied order,
and each row's total equals the sum of its six stat columns. -/
theorem C2_compare_rows_and_totals (inputs : List (String × CmpBody))
    (h6 : ∀ nb ∈ inputs, (nb.2.stats).length = 6) :
    ∃ rows : List CmpRow,
      comparePokemonRows (inputs.map (fun nb => (nb.1, Fetch.resp 200 nb.2))) =
        .ok rows ∧
      compare_pokemon (inputs.map (fun nb => (nb.1, Fetch.resp 200 nb.2))) =
        ⟨[renderComparison rows], false⟩ ∧
      rows.length = inputs.length ∧
      (∀ row ∈ rows, row.total =
        row.hp + row.attack + row.defense + row.specialAttack +
          row.specialDefense + row.speed) ∧
      rows.map CmpRow.name = inputs.map (fun nb => capitalize nb.2.name) := by
  induction inputs with
  | nil =>
    refine ⟨[], rfl, rfl, rfl, ?_, rfl⟩
    intro row hrow
    simp at hrow
  | cons nb rest ih =>
    obtain ⟨rows, hrows, _, hlen, htot, hnames⟩ :=
      ih (fun x hx => h6 x (List.mem_cons_of_mem nb hx))
    obtain ⟨s0, s1, s2, s3, s4, s5, hstats⟩ :=
      exists_six_of_length_eq nb.2.stats (h6 nb (List.mem_cons_self nb rest))
    obtain ⟨row, hmk, hrtot, hrname⟩ : ∃ row, makeRow nb.2 = some row ∧
        row.total = row.hp + row.attack + row.defense + row.specialAttack +
          row.specialDefense + row.speed ∧
        row.name = capitalize nb.2.name := by
      refine ⟨{ name := capitalize nb.2.name
                id := nb.2.id
                types := String.intercalate ", "
                  (nb.2.types.map (fun t => capitalize t.type.name))
                hp := s0.base_stat
                attack := s1.base_stat
                defense := s2.base_stat
                specialAttack := s3.base_stat
                specialDefense := s4.base_stat
                speed := s5.base_stat
                total := nb.2.stats.foldl
                  (fun sum stat => sum + stat.base_stat) 0 }, ?_, ?_, rfl⟩
      · unfold makeRow
        rw [hstats]
      · show nb.2.stats.foldl (fun sum stat => sum + stat.base_stat) 0 = _
        rw [hstats]
        simp [List.foldl]
    refine ⟨row :: rows, ?_, ?_, ?_, ?_, ?_⟩
    · simp [comparePokemonRows, respOk, hmk, hrows, Except.map]
    · have h1 : comparePokemonRows
          ((nb :: rest).map (fun x => (x.1, Fetch.resp 200 x.2))) =
          .ok (row :: rows) := by
        simp [comparePokemonRows, respOk, hmk, hrows, Except.map]
      simp only [List.map_cons] at h1
      simp [compare_pokemon, comparePokemonCore, h1, Except.map]
    · simp [hlen]
    · intro r hr
      rcases List.mem_cons.mp hr with h | h
      · subst h
        exact hrtot
      · exact htot r h
    · simp [hnames, hrname]

/-- Witness for C2 at two concrete Pokémon with full six-entry stats
arrays. -/
theorem C2_compare_rows_and_totals_witness :
    ∃ rows : List CmpRow,
      comparePokemonRows
        (([("pikachu", CmpBody.mk "pikachu" 25 [⟨⟨"electric"⟩⟩]
            [⟨35⟩, ⟨55⟩, ⟨40⟩, ⟨50⟩, ⟨50⟩, ⟨90⟩]),
          ("raichu", CmpBody.mk "raichu" 26 [⟨⟨"electric"⟩⟩]
            [⟨60⟩, ⟨90⟩, ⟨55⟩, ⟨90⟩, ⟨80⟩, ⟨110⟩])]).map
          (fun nb => (nb.1, Fetch.resp 200 nb.2))) = .ok rows ∧
      compare_pokemon
        (([("pikachu", CmpBody.mk "pikachu" 25 [⟨⟨"electric"⟩⟩]
            [⟨35⟩, ⟨55⟩, ⟨40⟩, ⟨50⟩, ⟨50⟩, ⟨90⟩]),
          ("raichu", CmpBody.mk "raichu" 26 [⟨⟨"electric"⟩⟩]
            [⟨60⟩, ⟨90⟩, ⟨55⟩, ⟨90⟩, ⟨80⟩, ⟨110⟩])]).map
          (fun nb => (nb.1, Fetch.resp 200 nb.2))) =
        ⟨[renderComparison rows], false⟩ ∧
      rows.length =
        ([("pikachu", CmpBody.mk "pikachu" 25 [⟨⟨"electric"⟩⟩]
            [⟨35⟩, ⟨55⟩, ⟨40⟩, ⟨50⟩, ⟨50⟩, ⟨90⟩]),
          ("raichu", CmpBody.mk "raichu" 26 [⟨⟨"electric"⟩⟩]
            [⟨60⟩, ⟨90⟩, ⟨55⟩, ⟨90⟩, ⟨80⟩, ⟨110⟩])] :
          List (String × CmpBody)).length ∧
      (∀ row ∈ rows, row.total =
        row.hp + row.attack + row.defense + row.specialAttack +
          row.specialDefense + row.speed) ∧
      rows.map CmpRow.name =
        ([("pikachu", CmpBody.mk "pikachu" 25 [⟨⟨"electric"⟩⟩]
            [⟨35⟩, ⟨55⟩, ⟨40⟩, ⟨50⟩, ⟨50⟩, ⟨90⟩]),
          ("raichu", CmpBody.mk "raichu" 26 [⟨⟨"electric"⟩⟩]
            [⟨60⟩, ⟨90⟩, ⟨55⟩, ⟨90⟩, ⟨80⟩, ⟨110⟩])]).map
          (fun nb => capitalize nb.2.name) :=
  C2_compare_rows_and_totals
    [("pikachu", CmpBody.mk "pikachu" 25 [⟨⟨"electric"⟩⟩]
        [⟨35⟩, ⟨55⟩, ⟨40⟩, ⟨50⟩, ⟨50⟩, ⟨90⟩]),
      ("raichu", CmpBody.mk "raichu" 26 [⟨⟨"electric"⟩⟩]
        [⟨60⟩, ⟨90⟩, ⟨55⟩, ⟨90⟩, ⟨80⟩, ⟨110⟩])]
    (by decide)

end PokeMcp
